import Mathlib

/-!
Verification of the new-item detection and idempotent processing loop of the
DGMS alert watcher (`src/alert_agent/agent.py`).

The embedding below translates the core of the source file — the Known-Set
Store (`load_known`, `save_known_atomic`), the Change Detector (the diff
computed inside `main_loop`), the extraction collaborator
(`get_gemini_output`), and the polling loop (`main_loop`) — into Lean.
External effects (file system, network, the Gemini and Supabase clients) are
made explicit: file contents are a datatype, per-cycle collaborator behaviour
is an environment record, and the loop produces an event trace recording the
save / extract / ingest calls in the order the source performs them.
-/

namespace AlertAgent

/-- A JSON value, as produced by Python's `json.load`.  Numbers are modelled
as integers (the known-set file only ever holds strings, so the number
representation is irrelevant to the claims). -/
inductive JsonValue
  | null
  | bool (b : Bool)
  | num (n : Int)
  | str (s : String)
  | arr (xs : List JsonValue)
  | obj (kvs : List (String × JsonValue))

/-- The state of the persisted known-set file as `load_known` can encounter
it: absent, present but unreadable (`open` raises), present with content that
is not valid JSON (`json.load` raises), or present with content parsing to a
JSON value. -/
inductive FileState
  | missing
  | unreadable
  | invalidJson
  | content (v : JsonValue)

/-- Python's builtin `list(...)` applied to a JSON-decoded value:
a list yields itself, a dict yields its keys (in insertion order), a string
yields its characters as one-character strings, and `None`/booleans/numbers
are not iterable (`TypeError`), modelled as `none`. -/
def pyListOf : JsonValue → Option (List JsonValue)
  | .arr xs => some xs
  | .obj kvs => some (kvs.map (fun kv => .str kv.1))
  | .str s => some (s.data.map (fun c => .str (String.mk [c])))
  | _ => none

/-- `load_known` (agent.py lines 99-110).  A missing file returns `[]` before
any file is opened.  `open` sits *outside* the `try`, so an unreadable file
raises (modelled as `Except.error ()`).  Inside the `try`, a JSON parse error
or a `TypeError` from `list(data)` is caught and returns `[]`; a decoded list
is returned as is; any other decoded value goes through `list(data)`. -/
def load_known : FileState → Except Unit (List JsonValue)
  | .missing => .ok []
  | .unreadable => .error ()
  | .invalidJson => .ok []
  | .content (.arr xs) => .ok xs
  | .content v =>
      match pyListOf v with
      | some l => .ok l
      | none => .ok []

/-- Content of one file in the directory holding the known-set file:
either the empty file `tempfile.mkstemp` creates, or a serialized identifier
list as written by `json.dump` (serialization is injective, so equality of
the model is byte-for-byte equality of the file). -/
inductive Content
  | empty
  | json (l : List String)
  deriving DecidableEq, Repr

/-- The slice of the file system `save_known_atomic` touches: the target
known-set file and the temporary file it creates next to it (in the same
directory).  `none` means the file does not exist. -/
structure FSState where
  target : Option Content
  temp : Option Content
  deriving DecidableEq, Repr

/-- `tempfile.mkstemp(...)` (line 116): creates the temporary file, empty. -/
def step_mkstemp (fs : FSState) : FSState :=
  { fs with temp := some .empty }

/-- `json.dump(list_data, f, ...)` (line 119): fills the temporary file. -/
def step_write (data : List String) (fs : FSState) : FSState :=
  { fs with temp := some (.json data) }

/-- `shutil.move(tmp, json_path)` (line 120): same-directory move, hence an
atomic `os.rename` over the target; the temporary file ceases to exist. -/
def step_move (fs : FSState) : FSState :=
  match fs.temp with
  | some c => { target := some c, temp := none }
  | none => fs

/-- The `finally` block (lines 121-126): removes the temporary file if it
still exists, otherwise does nothing. -/
def step_cleanup (fs : FSState) : FSState :=
  { fs with temp := none }

/-- Whether `save_known_atomic` returned normally or let an exception
propagate to its caller. -/
inductive SaveResult
  | ok
  | raised
  deriving DecidableEq, Repr

/-- `save_known_atomic` (agent.py lines 113-126), with fault injection:
`writeOk` is whether `json.dump` succeeds, `moveOk` whether `shutil.move`
succeeds.  On either failure the `finally` block removes the temporary file
and the exception propagates (`SaveResult.raised`). -/
def save_known_atomic (data : List String) (writeOk moveOk : Bool)
    (fs : FSState) : FSState × SaveResult :=
  let fs1 := step_mkstemp fs
  if writeOk = false then
    (step_cleanup fs1, .raised)
  else
    let fs2 := step_write data fs1
    if moveOk = false then
      (step_cleanup fs2, .raised)
    else
      (step_cleanup (step_move fs2), .ok)

/-- Value of one hexadecimal digit, as accepted by Python's `unquote`. -/
def hexDigit (c : Char) : Option Nat :=
  if '0' ≤ c ∧ c ≤ '9' then some (c.toNat - '0'.toNat)
  else if 'a' ≤ c ∧ c ≤ 'f' then some (c.toNat - 'a'.toNat + 10)
  else if 'A' ≤ c ∧ c ≤ 'F' then some (c.toNat - 'A'.toNat + 10)
  else none

/-- `urllib.parse.unquote` on the character level, with a fuel argument to
make the recursion structural (the caller passes the list's length, which
the scan never exhausts): `%XY` with two hex digits becomes the character
with code `16*X + Y`; an invalid escape keeps its `%` and scanning resumes
at the following character.  (Python decodes the percent-escaped bytes as
UTF-8; for the single-byte ASCII escapes the identifiers use, the two
agree.) -/
def unquoteFuel : Nat → List Char → List Char
  | 0, l => l
  | _ + 1, [] => []
  | fuel + 1, c :: rest =>
      if c = '%' then
        match rest with
        | a :: b :: rest2 =>
            match hexDigit a, hexDigit b with
            | some x, some y => Char.ofNat (16 * x + y) :: unquoteFuel fuel rest2
            | _, _ => c :: unquoteFuel fuel rest
        | _ => c :: unquoteFuel fuel rest
      else c :: unquoteFuel fuel rest

/-- `unquote(basename)` (agent.py line 87). -/
def unquoteChars (l : List Char) : List Char :=
  unquoteFuel l.length l

/-- Locate the end of the URL scheme (`...://`), after which the
network-location part begins.  `none` when the address has no scheme, in
which case `urlparse` treats the whole input as path. -/
def afterScheme : List Char → Option (List Char)
  | ':' :: '/' :: '/' :: rest => some rest
  | _ :: rest => afterScheme rest
  | [] => none

/-- Drop the network-location part: the path begins at the first `/`. -/
def dropNetloc : List Char → List Char
  | '/' :: rest => '/' :: rest
  | _ :: rest => dropNetloc rest
  | [] => []

/-- Truncate at the query or fragment delimiter. -/
def takePath : List Char → List Char
  | '?' :: _ => []
  | '#' :: _ => []
  | c :: rest => c :: takePath rest
  | [] => []

/-- `urlparse(full_url).path` (agent.py line 81), for the http(s) URLs the
watcher handles: the part after `scheme://netloc`, truncated at a query or
fragment. -/
def urlPathChars (u : List Char) : List Char :=
  match afterScheme u with
  | some rest => takePath (dropNetloc rest)
  | none => takePath u

/-- `os.path.basename(parsed.path)` (agent.py line 82): the segment after
the last `/`. -/
def basenameChars (p : List Char) : List Char :=
  (p.reverse.takeWhile (fun c => c ≠ '/')).reverse

/-- `str.lower()`, character by character (ASCII case mapping, which is all
the DGMS document names exercise). -/
def lowerChars (l : List Char) : List Char :=
  l.map Char.toLower

/-- The identifier-normalization pipeline of `extract_pdf_names_and_urls`
(agent.py lines 80-94) applied to one resolved document address: take the
URL path's final segment, percent-decode it, and if its lower-casing ends in
`.pdf`, drop the last four characters and lower-case the rest.  `none` when
the source's `continue` guards skip the anchor (empty basename, no
recognized suffix, or empty stripped name). -/
def derive_identifier (url : String) : Option String :=
  let basename := basenameChars (urlPathChars url.data)
  if basename = [] then none
  else
    let decoded := unquoteChars basename
    if List.isSuffixOf ['.', 'p', 'd', 'f'] (lowerChars decoded) then
      let name := lowerChars (decoded.take (decoded.length - 4))
      if name = [] then none else some (String.mk name)
    else none

/-- A structured record: a field-name-to-value mapping as returned by
`response.parsed` (the source later serializes it with `json.dumps`). -/
abbrev Record := List (String × JsonValue)

/-- The retry loop of `get_gemini_output` (agent.py lines 230-257).
`responses trial` is the outcome of the `generate_content` call on attempt
`trial` (0-based): `some r` when the call returns a truthy `response.parsed`,
`none` when it raises or yields an empty response.  The source loop is
`while True`, so it has no intrinsic bound; `fuel` is an observation horizon
only: a `none` result means the loop has not returned within `fuel` attempts
and is still retrying — it never stands for a "gives up" return. -/
def retry_model_call (responses : Nat → Option Record) :
    Nat → Nat → Option Record
  | 0, _ => none
  | fuel + 1, trial =>
      match responses trial with
      | some r => some r
      | none => retry_model_call responses fuel (trial + 1)

/-- `get_gemini_output` (agent.py lines 202-261).  `clientOk` is whether the
module-level `genai_client` was initialized; `downloadOk` whether the single
`requests.get(pdf_url)` for the PDF succeeds.  The result is
`some v` when the function returns the Python value `v` (`none` standing for
Python's `None`), and `none` when it has not returned within `fuel` attempts
of the unbounded retry loop. -/
def get_gemini_output (clientOk downloadOk : Bool)
    (responses : Nat → Option Record) (fuel : Nat) : Option (Option Record) :=
  if clientOk = false then
    some none
  else if downloadOk = false then
    some none
  else
    match retry_model_call responses fuel 0 with
    | some r => some (some r)
    | none => none

/-- The Change Detector (agent.py lines 338-344): the entries of the Observed
Map whose key is not in the Known Set, in the Observed Map's iteration order.
The Observed Map is an insertion-ordered Python dict, modelled as an
association list; `basename not in known` is list membership by string
equality. -/
def detect_new (observed : List (String × String)) (known : List String) :
    List (String × String) :=
  observed.filter (fun p => !known.contains p.1)

/-- The externally visible calls one poll cycle makes, in program order:
persisting the known set (`save_known_atomic`, with the list it writes),
one extraction call per item (`get_gemini_output`), and one ingestion call
per successfully extracted item (`add_incident`). -/
inductive Event
  | save (contents : List String)
  | extractCall (name url : String)
  | ingest (name : String)
  deriving DecidableEq, Repr

/-- Per-cycle behaviour of the collaborators: `fetch` is `none` when
`fetch_html` raises and otherwise the Observed Map that
`extract_pdf_names_and_urls` builds from the page; `saveOk` is whether
`save_known_atomic` returns normally; `extractResult url` is the value
`get_gemini_output url` returns for that item (`some r` is a truthy
structured record — the retry loop only exits on a truthy `response.parsed` —
and `none` is Python's `None` from the no-client / download-failure paths). -/
structure CycleEnv where
  fetch : Option (List (String × String))
  saveOk : Bool
  extractResult : String → Option Record

/-- How a cycle body leaves the `while True` loop: fall through to the next
iteration, `break` (single-shot mode), or an uncaught exception propagating
out of `main_loop`. -/
inductive CycleOutcome
  | next
  | stopped
  | crashed
  deriving DecidableEq, Repr

/-- The per-item loop (agent.py lines 359-376): for each new alert, call
`get_gemini_output`; on a truthy record call `add_incident`, otherwise log
and continue.  The surrounding `try` means no item aborts the loop. -/
def processItems (ext : String → Option Record) :
    List (String × String) → List Event
  | [] => []
  | (name, url) :: rest =>
      match ext url with
      | some _ => .extractCall name url :: .ingest name :: processItems ext rest
      | none => .extractCall name url :: processItems ext rest

/-- One iteration of the `while True` body of `main_loop` (agent.py lines
325-388): fetch (failure is caught: `break` if `once`, else sleep and
continue), build the Observed Map, diff against the Known Set; if anything is
new, extend the in-memory Known Set, persist it — *before* any item
processing — and only then process each item.  `save_known_atomic` is called
outside any `try`, so its failure is an uncaught exception.  Returns the
event trace, the in-memory Known Set after the cycle, and how the iteration
exits. -/
def runCycle (known : List String) (env : CycleEnv) (once : Bool) :
    List Event × List String × CycleOutcome :=
  match env.fetch with
  | none => ([], known, if once then .stopped else .next)
  | some observed =>
      let newAlerts := detect_new observed known
      if newAlerts.isEmpty then
        ([], known, if once then .stopped else .next)
      else
        let known1 := known ++ newAlerts.map Prod.fst
        if env.saveOk then
          (Event.save known1 :: processItems env.extractResult newAlerts,
           known1, if once then .stopped else .next)
        else
          ([], known1, .crashed)

/-- How `main_loop` itself ends: `finished` covers both a `break` (single-shot
mode) and reaching the end of the supplied per-cycle environments (the
observation horizon of the unbounded loop); `crashed` is an exception
escaping `main_loop`. -/
inductive LoopOutcome
  | finished
  | crashed
  deriving DecidableEq, Repr

/-- The `while True` loop of `main_loop`, iterated over one collaborator
environment per cycle.  Returns the per-cycle event traces, the final
in-memory Known Set, and whether the loop ended normally or by an uncaught
exception. -/
def runLoop (once : Bool) :
    List CycleEnv → List String → List (List Event) × List String × LoopOutcome
  | [], known => ([], known, .finished)
  | env :: rest, known =>
      let r := runCycle known env once
      match r.2.2 with
      | .crashed => ([r.1], r.2.1, .crashed)
      | .stopped => ([r.1], r.2.1, .finished)
      | .next =>
          let t := runLoop once rest r.2.1
          (r.1 :: t.1, t.2.1, t.2.2)

set_option linter.unusedVariables false in
/-- `main_loop` (agent.py lines 316-388).  `genaiClientObj` is the
`genai_client_obj` parameter: the source accepts it and never reads it
(extraction goes through the module-level global `genai_client`, whose
behaviour is part of each cycle's `CycleEnv`).  `known0` is the result of the
startup `load_known`. -/
def main_loop {γ : Type} (genaiClientObj : γ) (known0 : List String)
    (envs : List CycleEnv) (once : Bool) :
    List (List Event) × List String × LoopOutcome :=
  runLoop once envs known0

/-! Concrete inputs used by the witness theorems. -/

/-- A cycle in which the page shows two new documents and extraction fails
permanently (returns `None`) for the first one. -/
def envTwoItems : CycleEnv :=
  ⟨some [("a", "https://x/a.pdf"), ("b", "https://x/b.pdf")], true,
   fun u => if u = "https://x/b.pdf" then some [("mine", .str "m")] else none⟩

/-- A file-system state where the known-set file already holds `["old"]`. -/
def fsExample : FSState :=
  ⟨some (.json ["old"]), none⟩

/-- Model-call behaviour that fails on attempt 0 and succeeds on attempt 1. -/
def respExample : Nat → Option Record :=
  fun n => if n = 0 then none else some [("mine", .str "m")]

/-- A cycle with one new item whose known-set save fails. -/
def envSaveFail : CycleEnv :=
  ⟨some [("a", "https://x/a.pdf")], false, fun _ => none⟩

/-- A later cycle with one new item whose save succeeds. -/
def envSecond : CycleEnv :=
  ⟨some [("b", "https://x/b.pdf")], true, fun _ => none⟩

/-- A cycle whose page snapshot yields an empty Observed Map. -/
def envEmptyPage : CycleEnv :=
  ⟨some [], true, fun _ => none⟩

end AlertAgent

namespace AlertAgent

/-! Helper lemmas. -/

/-- If every model call up to the observation horizon fails, the retry loop
is still running — it has not produced a value. -/
theorem retry_model_call_none (responses : Nat → Option Record) :
    ∀ (fuel t : Nat), (∀ j, j < fuel → responses (t + j) = none) →
      retry_model_call responses fuel t = none := by
  intro fuel
  induction fuel with
  | zero => intro t _; rfl
  | succ n ih =>
      intro t h
      have h0 : responses t = none := by
        have := h 0 (Nat.succ_pos n)
        simpa using this
      rw [retry_model_call, h0]
      exact ih (t + 1) fun j hj => by
        have := h (j + 1) (Nat.succ_lt_succ hj)
        simpa [Nat.add_assoc, Nat.add_comm 1 j] using this

/-- The retry loop returns the first successful model response. -/
theorem retry_model_call_first (responses : Nat → Option Record) :
    ∀ (fuel t k : Nat) (r : Record), (∀ j, j < k → responses (t + j) = none) →
      responses (t + k) = some r → k < fuel →
      retry_model_call responses fuel t = some r := by
  intro fuel
  induction fuel with
  | zero => intro t k r _ _ hk; exact absurd hk (Nat.not_lt_zero k)
  | succ n ih =>
      intro t k r hfail hsucc hk
      cases k with
      | zero =>
          have h0 : responses t = some r := by simpa using hsucc
          rw [retry_model_call, h0]
      | succ m =>
          have h0 : responses t = none := by
            have := hfail 0 (Nat.succ_pos m)
            simpa using this
          rw [retry_model_call, h0]
          refine ih (t + 1) m r (fun j hj => ?_) ?_ (Nat.lt_of_succ_lt_succ hk)
          · have := hfail (j + 1) (Nat.succ_lt_succ hj)
            simpa [Nat.add_assoc, Nat.add_comm 1 j] using this
          · have : t + (m + 1) = t + 1 + m := by omega
            rw [← this]
            exact hsucc

/-- The per-item loop performs only extraction and ingestion calls — it never
saves the known set. -/
theorem processItems_no_save (ext : String → Option Record)
    (l : List (String × String)) (c : List String) :
    Event.save c ∉ processItems ext l := by
  induction l with
  | nil => simp [processItems]
  | cons p rest ih =>
      obtain ⟨name, url⟩ := p
      cases hx : ext url with
      | some r => simp [processItems, hx, ih]
      | none => simp [processItems, hx, ih]

/-- Membership and Boolean membership agree for string lists. -/
theorem contains_eq_mem (l : List String) (a : String) :
    l.contains a = true ↔ a ∈ l := by
  simp [List.contains]

/-- The in-memory Known Set at the end of a cycle extends the one at the
start of the cycle. -/
theorem runCycle_extends (known : List String) (env : CycleEnv) (once : Bool) :
    known <+: (runCycle known env once).2.1 := by
  unfold runCycle
  cases env.fetch with
  | none => exact List.prefix_refl _
  | some observed =>
      by_cases h : (detect_new observed known).isEmpty
      · simp [h]
      · simp only [h, if_false, Bool.false_eq_true]
        split
        · exact List.prefix_append _ _
        · exact List.prefix_append _ _

/-- The names of the new alerts of a cycle are mutually distinct (keys of a
Python dict are) and none of them is already known. -/
theorem detect_new_names_fresh (observed : List (String × String))
    (known : List String) (hobs : (observed.map Prod.fst).Nodup) :
    ((detect_new observed known).map Prod.fst).Nodup
    ∧ ∀ a ∈ (detect_new observed known).map Prod.fst, a ∉ known := by
  constructor
  · exact hobs.sublist ((List.filter_sublist observed).map Prod.fst)
  · intro a ha hk
    rcases List.mem_map.mp ha with ⟨p, hp, hpa⟩
    have hc := List.of_mem_filter hp
    simp only [Bool.not_eq_true', ← Bool.not_eq_true, contains_eq_mem] at hc
    rw [hpa] at hc
    exact hc hk

/-- A cycle keeps the Known Set duplicate-free. -/
theorem runCycle_nodup (known : List String) (env : CycleEnv) (once : Bool)
    (hk : known.Nodup)
    (hobs : ∀ obs, env.fetch = some obs → (obs.map Prod.fst).Nodup) :
    (runCycle known env once).2.1.Nodup := by
  unfold runCycle
  cases hf : env.fetch with
  | none => exact hk
  | some observed =>
      have hfresh := detect_new_names_fresh observed known (hobs observed hf)
      by_cases h : (detect_new observed known).isEmpty
      · simp [h, hk]
      · simp only [h, if_false, Bool.false_eq_true]
        have hnd : (known ++ (detect_new observed known).map Prod.fst).Nodup := by
          rw [List.nodup_append]
          exact ⟨hk, hfresh.1, fun a ha hb => hfresh.2 a hb ha⟩
        split
        · exact hnd
        · exact hnd

end AlertAgent

namespace AlertAgent

/-! Claim theorems. -/

/-- C2.  Change Detector correctness: `detect_new` yields exactly the entries
of the Observed Map whose key is not in the Known Set, compared by exact
string equality, and — being a sublist of the Observed Map — in the Observed
Map's iteration order.  Purity is intrinsic to the embedding: `detect_new`
is a total function of the two inputs alone, mirroring the source, which
only reads `found_urls` and `known` (agent.py lines 338-344). -/
theorem detect_new_correct (observed : List (String × String))
    (known : List String) :
    List.Sublist (detect_new observed known) observed
    ∧ ∀ p : String × String,
        p ∈ detect_new observed known ↔ p ∈ observed ∧ p.1 ∉ known := by
  constructor
  · exact List.filter_sublist observed
  · intro p
    simp [detect_new, List.mem_filter, contains_eq_mem]

/-- C4 counterexample.  The claim says `load` returns an empty collection
whenever the JSON top level is not an array and that it never raises.  On a
JSON object top level, `load_known` executes `list(data)` and returns the
list of keys — here `["a"]`, not `[]` — and on an unreadable file the `open`
call sits outside the `try`, so the error propagates. -/
theorem load_known_nonempty_for_object :
    load_known (.content (.obj [("a", .num 1)])) = .ok [.str "a"]
    ∧ load_known (.content (.obj [("a", .num 1)])) ≠ .ok []
    ∧ load_known .unreadable = .error () := by
  refine ⟨rfl, fun h => ?_, rfl⟩
  have h2 : [JsonValue.str "a"] = [] := Except.ok.inj (by rw [← h]; rfl)
  exact List.cons_ne_nil _ _ h2

/-- C4 amended.  `load_known` returns `[]` for a missing file, invalid JSON,
and non-iterable top levels (`null`, booleans, numbers, where `list(data)`
raises `TypeError` inside the `try`); it raises for an unreadable file; a
JSON array is returned exactly; a JSON object yields its list of keys and a
JSON string its list of one-character strings. -/
theorem load_known_leniency_amended :
    load_known .missing = .ok []
    ∧ load_known .invalidJson = .ok []
    ∧ load_known .unreadable = .error ()
    ∧ (∀ xs, load_known (.content (.arr xs)) = .ok xs)
    ∧ (∀ kvs, load_known (.content (.obj kvs))
        = .ok (kvs.map (fun kv => .str kv.1)))
    ∧ (∀ s, load_known (.content (.str s))
        = .ok (s.data.map (fun c => .str (String.mk [c]))))
    ∧ load_known (.content .null) = .ok []
    ∧ (∀ b, load_known (.content (.bool b)) = .ok [])
    ∧ (∀ n, load_known (.content (.num n)) = .ok []) :=
  ⟨rfl, rfl, rfl, fun _ => rfl, fun _ => rfl, fun _ => rfl, rfl,
   fun _ => rfl, fun _ => rfl⟩

/-- C7.  Identifier normalization: the identifier is the URL path's final
segment, percent-decoded, `.pdf`-stripped case-insensitively, lower-cased;
`.../Alert%20No%2012.PDF` yields `alert no 12`, and `.../foo.pdf` and
`.../FOO.PDF` both yield `foo`. -/
theorem identifier_normalization_examples :
    derive_identifier "https://x/Alert%20No%2012.PDF" = some "alert no 12"
    ∧ derive_identifier "https://x/foo.pdf" = some "foo"
    ∧ derive_identifier "https://x/FOO.PDF" = some "foo" := by
  refine ⟨?_, ?_, ?_⟩ <;> rfl

/-- C9.  Empty-page scenario: when the Observed Map is empty, the cycle makes
no save / extract / ingest call at all, leaves the in-memory Known Set
unchanged, and does not treat the situation as an error (the cycle does not
crash; it proceeds to sleep or, in single-shot mode, stops). -/
theorem empty_page_no_calls (known : List String) (env : CycleEnv)
    (once : Bool) (hf : env.fetch = some []) :
    (runCycle known env once).1 = []
    ∧ (runCycle known env once).2.1 = known
    ∧ (runCycle known env once).2.2 ≠ CycleOutcome.crashed := by
  unfold runCycle
  rw [hf]
  refine ⟨rfl, rfl, ?_⟩
  cases once <;> simp [detect_new]

/-- C9 witness. -/
theorem empty_page_no_calls_witness :
    (runCycle ["k"] envEmptyPage false).1 = []
    ∧ (runCycle ["k"] envEmptyPage false).2.1 = ["k"]
    ∧ (runCycle ["k"] envEmptyPage false).2.2 ≠ CycleOutcome.crashed :=
  empty_page_no_calls ["k"] envEmptyPage false rfl

/-- C10.  The `genai_client_obj` parameter of `main_loop` is accepted but
never read (extraction goes through the module-level global client, whose
behaviour the per-cycle environments capture): for any two values of the
parameter — even of different types — and the same remaining inputs and
collaborator behaviour, the loop's event traces, final Known Set and outcome
are identical. -/
theorem main_loop_ignores_genai_param {γ δ : Type} (a : γ) (b : δ)
    (known0 : List String) (envs : List CycleEnv) (once : Bool) :
    main_loop a known0 envs once = main_loop b known0 envs once := rfl

end AlertAgent

namespace AlertAgent

/-- C1.  Commit-before-process ordering: in a cycle whose new-items set is
non-empty (and whose save succeeds), the in-memory Known Set is first
extended with all new identifiers and persisted — the save of the full
extended list is the *first* event of the cycle's trace, and no save occurs
later — before any extraction or ingestion call is made; this holds for
every extraction behaviour, in particular when extraction fails permanently
for the first of two new items (see the witness). -/
theorem commit_before_process (known : List String) (env : CycleEnv)
    (once : Bool) (observed : List (String × String))
    (hf : env.fetch = some observed)
    (hnew : detect_new observed known ≠ [])
    (hsave : env.saveOk = true) :
    (runCycle known env once).2.1
      = known ++ (detect_new observed known).map Prod.fst
    ∧ ∃ tl, (runCycle known env once).1
          = Event.save (known ++ (detect_new observed known).map Prod.fst) :: tl
        ∧ ∀ c, Event.save c ∉ tl := by
  have hne : (detect_new observed known).isEmpty = false := by
    cases h : detect_new observed known with
    | nil => exact absurd h hnew
    | cons x xs => rfl
  have hcyc : runCycle known env once
      = (Event.save (known ++ (detect_new observed known).map Prod.fst)
           :: processItems env.extractResult (detect_new observed known),
         known ++ (detect_new observed known).map Prod.fst,
         if once then CycleOutcome.stopped else CycleOutcome.next) := by
    unfold runCycle
    rw [hf]
    simp [hne, hsave]
  rw [hcyc]
  exact ⟨rfl,
    processItems env.extractResult (detect_new observed known), rfl,
    fun c => processItems_no_save env.extractResult _ c⟩

/-- C1 witness: two new items, extraction failing permanently for the first;
the persisted list `["a", "b"]` is saved before the two extraction calls and
the known set holds both identifiers. -/
theorem commit_before_process_witness :
    (runCycle [] envTwoItems false).2.1 = ["a", "b"]
    ∧ (runCycle [] envTwoItems false).1
        = [Event.save ["a", "b"],
           Event.extractCall "a" "https://x/a.pdf",
           Event.extractCall "b" "https://x/b.pdf",
           Event.ingest "b"] := by
  refine ⟨?_, by decide⟩
  exact (commit_before_process [] envTwoItems false
      [("a", "https://x/a.pdf"), ("b", "https://x/b.pdf")] rfl (by decide)
      rfl).1.trans (by decide)

/-- C3.  Atomic persistence: a crash after creating the temporary file, or
after writing it (i.e. at any point between the temporary-file write and the
rename), leaves the target file unchanged; on any failure path the temporary
file is cleaned up, the error propagates, and the target is unchanged; a
successful save installs exactly the new content and leaves no temporary
file. -/
theorem save_known_atomic_crash_safe (data : List String) (fs : FSState) :
    (step_mkstemp fs).target = fs.target
    ∧ (step_write data (step_mkstemp fs)).target = fs.target
    ∧ (∀ writeOk moveOk : Bool,
        (save_known_atomic data writeOk moveOk fs).2 = SaveResult.raised →
          (save_known_atomic data writeOk moveOk fs).1.target = fs.target
          ∧ (save_known_atomic data writeOk moveOk fs).1.temp = none)
    ∧ (save_known_atomic data true true fs).1
        = { target := some (.json data), temp := none } := by
  refine ⟨rfl, rfl, ?_, rfl⟩
  intro writeOk moveOk h
  cases writeOk <;> cases moveOk <;>
    simp_all [save_known_atomic, step_mkstemp, step_write, step_move,
      step_cleanup]

/-- C3 witness: a crash of the rename step (`moveOk = false`) over a file
that already holds `["old"]` leaves that content byte-for-byte in place and
no temporary artifact behind. -/
theorem save_known_atomic_crash_safe_witness :
    (save_known_atomic ["a"] true false fsExample).1.target = fsExample.target
    ∧ (save_known_atomic ["a"] true false fsExample).1.temp = none :=
  (save_known_atomic_crash_safe ["a"] fsExample).2.2.1 true false rfl

/-- C5 counterexample.  The claim says the extraction collaborator never
returns a no-result outcome and retries every transient network failure.
But the PDF download that precedes the model calls is attempted exactly
once: when `requests.get(pdf_url)` fails, `get_gemini_output` returns
Python `None` — a no-result outcome — without any retry (agent.py lines
212-220); likewise when the module-level client is uninitialized (lines
207-209). -/
theorem get_gemini_output_gives_up_on_download :
    get_gemini_output true false (fun _ => none) 5 = some none
    ∧ get_gemini_output false true (fun _ => none) 5 = some none := ⟨rfl, rfl⟩

/-- C5 amended.  The *model-output* call is retried with unbounded attempts
and a fixed backoff on every transient failure (API error or empty parsed
output): if the first `fuel` attempts all fail the loop is still running at
horizon `fuel` (no retry ceiling, no cumulative timeout, no give-up), and it
returns exactly the first successful structured record; but the preceding
PDF download is attempted once only, and on a download failure (or an
uninitialized client) the function returns `None`, a no-result outcome the
processing loop then logs and skips. -/
theorem get_gemini_output_retry_amended (responses : Nat → Option Record)
    (fuel : Nat) :
    ((∀ j, j < fuel → responses j = none) →
        get_gemini_output true true responses fuel = none)
    ∧ (∀ k r, (∀ j, j < k → responses j = none) → responses k = some r →
        k < fuel → get_gemini_output true true responses fuel = some (some r))
    ∧ get_gemini_output true false responses fuel = some none
    ∧ get_gemini_output false true responses fuel = some none := by
  refine ⟨?_, ?_, rfl, rfl⟩
  · intro h
    have hr := retry_model_call_none responses fuel 0
      (fun j hj => by simpa using h j hj)
    simp [get_gemini_output, hr]
  · intro k r hfail hsucc hk
    have hr := retry_model_call_first responses fuel 0 k r
      (fun j hj => by simpa using hfail j hj) (by simpa using hsucc) hk
    simp [get_gemini_output, hr]

/-- C5 witness: with the first model attempt failing and the second
succeeding, the collaborator returns the second attempt's record. -/
theorem get_gemini_output_retry_witness :
    get_gemini_output true true respExample 5
      = some (some [("mine", JsonValue.str "m")]) :=
  (get_gemini_output_retry_amended respExample 5).2.1 1
    [("mine", JsonValue.str "m")]
    (fun j hj => by interval_cases j; rfl) rfl (by decide)

/-- C6.  Known-Set invariant: across any run of the processing loop, the
starting Known Set is a prefix of the final one (identifiers are never
removed), and — because membership is tested before insertion and the
Observed Map's keys are distinct (Python dict keys) — a duplicate-free
Known Set stays duplicate-free. -/
theorem known_set_monotone_nodup (once : Bool) (envs : List CycleEnv)
    (known0 : List String) (hk : known0.Nodup)
    (hobs : ∀ env ∈ envs, ∀ obs, env.fetch = some obs →
      (obs.map Prod.fst).Nodup) :
    known0 <+: (runLoop once envs known0).2.1
    ∧ (runLoop once envs known0).2.1.Nodup := by
  revert hk hobs
  induction envs generalizing known0 with
  | nil => exact fun hk _ => ⟨List.prefix_refl _, hk⟩
  | cons env rest ih =>
      intro hk hobs
      have hpre := runCycle_extends known0 env once
      have hnd := runCycle_nodup known0 env once hk
        (fun obs hf => hobs env (List.mem_cons_self _ _) obs hf)
      have hrest : ∀ e ∈ rest, ∀ obs, e.fetch = some obs →
          (obs.map Prod.fst).Nodup :=
        fun e he obs hf => hobs e (List.mem_cons_of_mem _ he) obs hf
      simp only [runLoop]
      cases ho : (runCycle known0 env once).2.2 with
      | crashed => simp only [ho]; exact ⟨hpre, hnd⟩
      | stopped => simp only [ho]; exact ⟨hpre, hnd⟩
      | next =>
          simp only [ho]
          obtain ⟨ih1, ih2⟩ := ih (runCycle known0 env once).2.1 hnd hrest
          exact ⟨hpre.trans ih1, ih2⟩

/-- C6 witness: starting from `["alpha"]` and observing two fresh documents,
the Known Set after the run extends `["alpha"]` and is duplicate-free. -/
theorem known_set_monotone_nodup_witness :
    ["alpha"] <+: (runLoop false [envTwoItems] ["alpha"]).2.1
    ∧ (runLoop false [envTwoItems] ["alpha"]).2.1.Nodup :=
  known_set_monotone_nodup false [envTwoItems] ["alpha"] (by decide)
    (by
      intro e he obs hf
      rw [List.mem_singleton] at he
      subst he
      have hf2 : some [("a", "https://x/a.pdf"), ("b", "https://x/b.pdf")]
          = some obs := hf
      injection hf2 with h2
      rw [← h2]
      decide)

/-- C8 counterexample.  The claim says a failed known-set save is fatal to
the current cycle *only*.  In the source, `save_known_atomic` is called
outside every `try` in `main_loop`, so the exception escapes the `while`
loop entirely: with a second poll cycle available (a new item `b` whose save
would succeed), the run ends `crashed` after the first cycle and the second
cycle's trace never appears. -/
theorem save_failure_crashes_loop :
    (runLoop false [envSaveFail, envSecond] []).2.2 = LoopOutcome.crashed
    ∧ (runLoop false [envSaveFail, envSecond] []).1 = [[]] := ⟨rfl, rfl⟩

/-- C8 amended.  If the atomic rename cannot complete, the error propagates
upward after the temporary-file cleanup (target unchanged, no temporary
left), the failing cycle performs no item processing — but the exception is
not confined to that cycle: it terminates the whole processing loop,
regardless of how many cycles were still to come. -/
theorem save_failure_fatal_amended (known : List String) (env : CycleEnv)
    (rest : List CycleEnv) (once : Bool) (observed : List (String × String))
    (hf : env.fetch = some observed)
    (hnew : detect_new observed known ≠ [])
    (hsv : env.saveOk = false) :
    runLoop once (env :: rest) known
      = ([[]], known ++ (detect_new observed known).map Prod.fst,
         LoopOutcome.crashed)
    ∧ (save_known_atomic (known ++ (detect_new observed known).map Prod.fst)
          true false fsExample).2 = SaveResult.raised
    ∧ (save_known_atomic (known ++ (detect_new observed known).map Prod.fst)
          true false fsExample).1.temp = none := by
  have hne : (detect_new observed known).isEmpty = false := by
    cases h : detect_new observed known with
    | nil => exact absurd h hnew
    | cons x xs => rfl
  have hcyc : runCycle known env once
      = ([], known ++ (detect_new observed known).map Prod.fst,
         CycleOutcome.crashed) := by
    unfold runCycle
    rw [hf]
    simp [hne, hsv]
  refine ⟨?_, rfl, rfl⟩
  simp only [runLoop, hcyc]

/-- C8 witness. -/
theorem save_failure_fatal_witness :
    runLoop false [envSaveFail, envSecond] []
      = ([[]], [] ++ (detect_new [("a", "https://x/a.pdf")] []).map Prod.fst,
         LoopOutcome.crashed)
    ∧ (save_known_atomic
          ([] ++ (detect_new [("a", "https://x/a.pdf")] []).map Prod.fst)
          true false fsExample).2 = SaveResult.raised :=
  ⟨(save_failure_fatal_amended [] envSaveFail [envSecond] false
      [("a", "https://x/a.pdf")] rfl (by decide) rfl).1,
   (save_failure_fatal_amended [] envSaveFail [envSecond] false
      [("a", "https://x/a.pdf")] rfl (by decide) rfl).2.1⟩

end AlertAgent
